import Mathlib

/-!
# Proxmox provider: VM and volume lifecycle

A shallow embedding of `proxmox/resource_vm.go` and `proxmox/resource_storage.go`.

* The declared attributes of a resource (`*schema.ResourceData`) are a record with one
  field per key of the resource schema; `Get` and `GetOk` look a key up by its string.
* The hypervisor client (`*goproxmox.Client`) is a record of functions, one per API
  call; every lifecycle function returns the calls it issued, in order.
* Go `error` results are `Option GoError` (`none` is `nil`); a failed type assertion or
  nil dereference is the outcome `panic`.
-/

set_option linter.unusedVariables false

namespace Proxmox

/-! ## Go values -/

/-- Go `error` values as seen by the provider: the two error types `resourceVMRead`
switches on, the `*strconv.NumError` of `strconv.Atoi`, and any other error. -/
inductive GoError where
  | VMDoesNotExistError (msg : String)
  | NodeDoesNotExistError (msg : String)
  | NumError (func num msg : String)
  | other (msg : String)
  deriving DecidableEq, Repr

deriving instance DecidableEq for Except

/-- Result of a Go function returning `(T, error)` that may also panic. -/
inductive Result (α : Type) where
  | ok (a : α)
  | err (e : GoError)
  | panic
  deriving DecidableEq, Repr

/-- Sequencing of fallible steps: the first error or panic ends the computation. -/
def Result.bind {α β : Type} (r : Result α) (f : α → Result β) : Result β :=
  match r with
  | .ok a => f a
  | .err e => .err e
  | .panic => .panic

/-- A type assertion `v.(T)`: panics when the dynamic type is not `T`. -/
def Result.ofAssert {α : Type} (o : Option α) : Result α :=
  match o with
  | some a => .ok a
  | none => .panic

/-! ## `strconv` -/

/-- The ASCII digit for `n < 10`. -/
def digitChar (n : Nat) : Char := Char.ofNat (48 + n)

/-- Decimal digits of `n`, most significant first, written in front of `acc`
(the loop of `strconv.formatBits` for base 10). -/
def formatDigits : Nat → Nat → List Char → List Char
  | 0, _, acc => acc
  | fuel + 1, n, acc =>
    if n < 10 then digitChar n :: acc
    else formatDigits fuel (n / 10) (digitChar (n % 10) :: acc)

/-- Decimal digits of a natural number. -/
def formatNat (n : Nat) : List Char := formatDigits (n + 1) n []

/-- The function `strconv.Itoa`, also the `%d` verb of `fmt.Sprintf`. -/
def Itoa (i : Int) : String :=
  if i < 0 then String.mk ('-' :: formatNat i.natAbs) else String.mk (formatNat i.natAbs)

/-- Value of an ASCII digit, `none` for any other character. -/
def digitVal (c : Char) : Option Nat :=
  if 48 ≤ c.toNat ∧ c.toNat ≤ 57 then some (c.toNat - 48) else none

/-- Reads a run of decimal digits, continuing from the value `acc`. -/
def parseDigits : List Char → Nat → Option Nat
  | [], acc => some acc
  | c :: cs, acc =>
    match digitVal c with
    | some v => parseDigits cs (acc * 10 + v)
    | none => none

/-- The function `strconv.Atoi`: an optional sign, then one or more decimal digits, in the range of
a 64-bit `int`. -/
def Atoi (s : String) : Except GoError Int :=
  let neg : Bool := match s.data with
    | '-' :: _ => true
    | _ => false
  let ds : List Char := match s.data with
    | '-' :: r => r
    | '+' :: r => r
    | cs => cs
  if ds = [] then .error (.NumError "Atoi" s "invalid syntax")
  else
    match parseDigits ds 0 with
    | none => .error (.NumError "Atoi" s "invalid syntax")
    | some n =>
      let v : Int := if neg then -(n : Int) else (n : Int)
      if v < -9223372036854775808 ∨ 9223372036854775807 < v then
        .error (.NumError "Atoi" s "value out of range")
      else .ok v

/-! ## Declared attributes (`schema.ResourceData`) -/

/-- A primitive attribute value held in an `interface{}`. A `TypeFloat` value is kept
as a rational; the provider never inspects one. -/
inductive Prim where
  | str (s : String)
  | int (i : Int)
  | bool (b : Bool)
  | float (q : Rat)
  deriving DecidableEq, Repr

/-- One element of a `schema.Set` of blocks: a `map[string]interface{}`. -/
abbrev Elem := List (String × Prim)

/-- What `d.Get(key)` hands back as an `interface{}`. -/
inductive Value where
  | nil
  | str (s : String)
  | int (i : Int)
  | bool (b : Bool)
  | set (elems : List Elem)
  | map (m : List (String × String))
  deriving DecidableEq, Repr

/-- The assertion `v.(string)` on a block field. -/
def Prim.asString : Prim → Option String
  | .str s => some s
  | _ => none

/-- The assertion `v.(int)` on a block field. -/
def Prim.asInt : Prim → Option Int
  | .int i => some i
  | _ => none

/-- The assertion `v.(bool)` on a block field. -/
def Prim.asBool : Prim → Option Bool
  | .bool b => some b
  | _ => none

/-- The assertion `v.(string)`. -/
def Value.asString : Value → Option String
  | .str s => some s
  | _ => none

/-- The assertion `v.(int)`. -/
def Value.asInt : Value → Option Int
  | .int i => some i
  | _ => none

/-- The assertion `v.(bool)`. -/
def Value.asBool : Value → Option Bool
  | .bool b => some b
  | _ => none

/-- The assertion `v.(*schema.Set)` followed by `List()`. -/
def Value.asSet : Value → Option (List Elem)
  | .set es => some es
  | _ => none

/-- The assertion `v.(map[string]interface{})`; a `TypeMap` without `Elem` holds
strings. -/
def Value.asMap : Value → Option (List (String × String))
  | .map m => some m
  | _ => none

/-- Whether a value is the zero value of its type (`nil` for a key outside the schema). -/
def Value.isZero : Value → Bool
  | .nil => true
  | .str s => s == ""
  | .int i => i == 0
  | .bool b => !b
  | .set es => es.isEmpty
  | .map m => m.isEmpty

/-- An `ide_device` block of the schema of `resourceVM`. -/
structure IDEBlock where
  number : Int
  file : String
  media : String := ""
  size : String := ""
  deriving DecidableEq, Repr

/-- A `network_device` block of the schema of `resourceVM`. -/
structure NetworkBlock where
  number : Int
  model : String
  bridge : String := ""
  firewall : Bool := false
  link_down : Bool := false
  macaddr : String := ""
  queues : Int := 0
  rate : Rat := 0
  tag : Int := 0
  trunks : String := ""
  deriving DecidableEq, Repr

/-- A `serial_device` block of the schema of `resourceVM`. -/
structure SerialBlock where
  number : Int
  device : String
  deriving DecidableEq, Repr

/-- A `virtio_device` block of the schema of `resourceVM`. -/
structure VirtBlock where
  number : Int
  file : String
  cache : String := ""
  format : String := ""
  backup : Bool := false
  iothread : Bool := false
  size : String := ""
  snapshot : Bool := false
  deriving DecidableEq, Repr

/-- A set element as the framework reads it: every key of the block schema is there,
an undeclared optional one with the zero value of its type. -/
def IDEBlock.toElem (b : IDEBlock) : Elem :=
  [("number", .int b.number), ("file", .str b.file), ("media", .str b.media),
   ("size", .str b.size)]

/-- The set element of a `network_device` block. -/
def NetworkBlock.toElem (b : NetworkBlock) : Elem :=
  [("number", .int b.number), ("model", .str b.model), ("bridge", .str b.bridge),
   ("firewall", .bool b.firewall), ("link_down", .bool b.link_down),
   ("macaddr", .str b.macaddr), ("queues", .int b.queues), ("rate", .float b.rate),
   ("tag", .int b.tag), ("trunks", .str b.trunks)]

/-- The set element of a `serial_device` block. -/
def SerialBlock.toElem (b : SerialBlock) : Elem :=
  [("number", .int b.number), ("device", .str b.device)]

/-- The set element of a `virtio_device` block. -/
def VirtBlock.toElem (b : VirtBlock) : Elem :=
  [("number", .int b.number), ("file", .str b.file), ("cache", .str b.cache),
   ("format", .str b.format), ("backup", .bool b.backup), ("iothread", .bool b.iothread),
   ("size", .str b.size), ("snapshot", .bool b.snapshot)]

/-- The resource data of a `proxmox_vm` resource: the persisted identifier and one field
per key of the schema declared by `resourceVM`. An optional attribute that is not
declared is `none`; `template` and `start_after_create` default to `false`. -/
structure ResourceData where
  id : String := ""
  node : String
  vm_id : Int
  template : Option Bool := none
  start_after_create : Option Bool := none
  clone : Option (List (String × String)) := none
  args : Option String := none
  name : Option String := none
  smbios1 : Option String := none
  start_at_boot : Option Bool := none
  memory : Option Int := none
  cores : Option Int := none
  ide_device : List IDEBlock := []
  network_device : List NetworkBlock := []
  serial_device : List SerialBlock := []
  virtio_device : List VirtBlock := []
  deriving DecidableEq, Repr

/-- The attribute table: each key of the schema of `resourceVM` with the value a read
of it yields, the zero value of the schema type when the attribute is not declared. -/
def ResourceData.attrs (d : ResourceData) : List (String × Value) :=
  [("node", .str d.node),
   ("vm_id", .int d.vm_id),
   ("template", .bool (d.template.getD false)),
   ("start_after_create", .bool (d.start_after_create.getD false)),
   ("clone", .map (d.clone.getD [])),
   ("args", .str (d.args.getD "")),
   ("name", .str (d.name.getD "")),
   ("smbios1", .str (d.smbios1.getD "")),
   ("start_at_boot", .bool (d.start_at_boot.getD false)),
   ("memory", .int (d.memory.getD 0)),
   ("cores", .int (d.cores.getD 0)),
   ("ide_device", .set (d.ide_device.map IDEBlock.toElem)),
   ("network_device", .set (d.network_device.map NetworkBlock.toElem)),
   ("serial_device", .set (d.serial_device.map SerialBlock.toElem)),
   ("virtio_device", .set (d.virtio_device.map VirtBlock.toElem))]

/-- The read `d.Get(key)`: the value of the attribute, `nil` for a key the schema does not
declare. -/
def ResourceData.Get (d : ResourceData) (key : String) : Value :=
  (d.attrs.lookup key).getD .nil

/-- The read `d.GetOk(key)`: the value, and whether the key has been set to a non-zero value;
`(nil, false)` for a key the schema does not declare. -/
def ResourceData.GetOk (d : ResourceData) (key : String) : Value × Bool :=
  (d.Get key, !(d.Get key).isZero)

/-- The write `d.SetId(id)`. -/
def ResourceData.SetId (d : ResourceData) (id : String) : ResourceData :=
  { d with id := id }

/-- The write `d.Set(key, value)` as the provider uses it on a VM: only `name` is ever written. -/
def ResourceData.Set (d : ResourceData) (key : String) (v : Value) : ResourceData :=
  match key, v with
  | "name", .str s => { d with name := some s }
  | _, _ => d

/-! ## The `goproxmox` library -/

/-- The struct `goproxmox.IDEDevice`, the fields the provider fills. -/
structure IDEDevice where
  File : Option String := none
  Media : Option String := none
  deriving DecidableEq, Repr

/-- The struct `goproxmox.NetworkDevice`, the fields the provider fills. -/
structure NetworkDevice where
  Model : Option String := none
  Bridge : Option String := none
  MacAddr : Option String := none
  deriving DecidableEq, Repr

/-- The struct `goproxmox.SerialDevice`. -/
structure SerialDevice where
  Value : String
  deriving DecidableEq, Repr

/-- The struct `goproxmox.VirtIODevice`, the fields the provider fills. -/
structure VirtIODevice where
  File : Option String := none
  Size : Option String := none
  Backup : Option Bool := none
  Cache : Option String := none
  deriving DecidableEq, Repr

/-- A Go map from slot number to device; `none` is the nil map. -/
abbrev SlotMap (α : Type) := Option (List (Int × α))

/-- Map assignment `m[number] = device` on a map that is allocated on first use: an
entry already stored under `number` is replaced. -/
def SlotMap.insert {α : Type} (m : SlotMap α) (number : Int) (device : α) : SlotMap α :=
  some ((number, device) :: (m.getD []).filter (fun p => p.1 ≠ number))

/-- The struct `goproxmox.VMConfig`: optional scalars (a nil pointer is `none`) and the four device
maps. -/
structure VMConfig where
  Args : Option String := none
  Cores : Option Int := none
  Memory : Option Int := none
  Name : Option String := none
  SMBIOS1 : Option String := none
  StartAtBoot : Option Bool := none
  IDEDevices : SlotMap IDEDevice := none
  NetworkDevices : SlotMap NetworkDevice := none
  SerialDevices : SlotMap SerialDevice := none
  VirtIODevices : SlotMap VirtIODevice := none
  deriving DecidableEq, Repr

/-- The method `config.AddIDEDevice(number, device)`. -/
def VMConfig.AddIDEDevice (c : VMConfig) (number : Int) (device : IDEDevice) : VMConfig :=
  { c with IDEDevices := c.IDEDevices.insert number device }

/-- The method `config.AddNetworkDevice(number, device)`. -/
def VMConfig.AddNetworkDevice (c : VMConfig) (number : Int) (device : NetworkDevice) :
    VMConfig :=
  { c with NetworkDevices := c.NetworkDevices.insert number device }

/-- The method `config.AddSerialDevice(number, device)`. -/
def VMConfig.AddSerialDevice (c : VMConfig) (number : Int) (device : SerialDevice) :
    VMConfig :=
  { c with SerialDevices := c.SerialDevices.insert number device }

/-- The method `config.AddVirtIODevice(number, device)`. -/
def VMConfig.AddVirtIODevice (c : VMConfig) (number : Int) (device : VirtIODevice) :
    VMConfig :=
  { c with VirtIODevices := c.VirtIODevices.insert number device }

/-- The struct `goproxmox.VMCloneConfig`. -/
structure VMCloneConfig where
  Name : Option String := none
  Full : Option Bool := none
  deriving DecidableEq, Repr

/-- The two enum readers of `goproxmox`, whose sets of tokens are not part of this
repository: each returns the enum value of a recognised string and an error
otherwise. -/
structure Goproxmox where
  MediaTypeFromString : String → Except GoError String
  NetworkCardModelFromString : String → Except GoError String

/-! ## `parseVMConfig` -/

/-- The value of `elem[key].(int)`; the assertion panics on a missing key. -/
def elemInt (elem : Elem) (key : String) : Result Int :=
  Result.ofAssert ((elem.lookup key).bind Prim.asInt)

/-- The value of `elem[key].(string)`; the assertion panics on a missing key. -/
def elemString (elem : Elem) (key : String) : Result String :=
  Result.ofAssert ((elem.lookup key).bind Prim.asString)

/-- Body of the loop over `ide_devices` in `parseVMConfig`, run over the elements in
order. The debug log line is left out. -/
def parseIDEDevices (lib : Goproxmox) : List Elem → VMConfig → Result VMConfig
  | [], config => .ok config
  | elem :: rest, config =>
    (elemInt elem "number").bind fun number =>
    (elemString elem "media").bind fun mediaStr =>
    match lib.MediaTypeFromString mediaStr with
    | .error e => .err e
    | .ok media =>
      (elemString elem "file").bind fun file =>
      parseIDEDevices lib rest
        (config.AddIDEDevice number { File := some file, Media := some media })

/-- Construction of one `goproxmox.NetworkDevice` from a set element, as both
`parseVMConfig` and `resourceVMCloneCreate` do it: the model is read first, then the
slot number, then `bridge` when the key is there and `macaddr` when it is there and is
not the empty string. -/
def parseNetworkDevice (lib : Goproxmox) (elem : Elem) : Result (Int × NetworkDevice) :=
  (elemString elem "model").bind fun modelStr =>
  match lib.NetworkCardModelFromString modelStr with
  | .error e => .err e
  | .ok cardModel =>
    (elemInt elem "number").bind fun number =>
    let device : NetworkDevice := { Model := some cardModel }
    (match elem.lookup "bridge" with
      | some val =>
        (Result.ofAssert val.asString).bind fun s => .ok { device with Bridge := some s }
      | none => .ok device).bind fun device =>
    (match elem.lookup "macaddr" with
      | some val =>
        if val ≠ Prim.str "" then
          (Result.ofAssert val.asString).bind fun s => .ok { device with MacAddr := some s }
        else .ok device
      | none => .ok device).bind fun device =>
    .ok (number, device)

/-- Body of the loop over `network_devices`, run over the elements in order. -/
def parseNetworkDevices (lib : Goproxmox) : List Elem → VMConfig → Result VMConfig
  | [], config => .ok config
  | elem :: rest, config =>
    (parseNetworkDevice lib elem).bind fun nd =>
    parseNetworkDevices lib rest (config.AddNetworkDevice nd.1 nd.2)

/-- Body of the loop over `serial_devices` in `parseVMConfig`. -/
def parseSerialDevices : List Elem → VMConfig → Result VMConfig
  | [], config => .ok config
  | elem :: rest, config =>
    (elemInt elem "number").bind fun number =>
    (elemString elem "device").bind fun value =>
    parseSerialDevices rest (config.AddSerialDevice number { Value := value })

/-- Body of the loop over `virtio_devices` in `parseVMConfig`: `backup` is compared with
the empty string as an `interface{}`, so a boolean always passes the test. -/
def parseVirtIODevices : List Elem → VMConfig → Result VMConfig
  | [], config => .ok config
  | elem :: rest, config =>
    (elemInt elem "number").bind fun number =>
    (elemString elem "file").bind fun file =>
    (elemString elem "size").bind fun size =>
    let device : VirtIODevice := { File := some file, Size := some size }
    (match elem.lookup "backup" with
      | some val =>
        if val ≠ Prim.str "" then
          (Result.ofAssert val.asBool).bind fun b => .ok { device with Backup := some b }
        else .ok device
      | none => .ok device).bind fun device =>
    (match elem.lookup "cache" with
      | some val =>
        if val ≠ Prim.str "" then
          (Result.ofAssert val.asString).bind fun s => .ok { device with Cache := some s }
        else .ok device
      | none => .ok device).bind fun device =>
    parseVirtIODevices rest (config.AddVirtIODevice number device)

/-- The function `parseVMConfig`: six scalars copied when `GetOk` reports them, then the
four device loops, each under the key the source reads (`ide_devices`,
`network_devices`, `serial_devices`, `virtio_devices`). -/
def parseVMConfig (lib : Goproxmox) (d : ResourceData) : Result VMConfig :=
  let config : VMConfig := {}
  (if (d.GetOk "args").2 then
      (Result.ofAssert (d.GetOk "args").1.asString).bind fun v =>
        .ok { config with Args := some v }
    else .ok config).bind fun config =>
  (if (d.GetOk "cores").2 then
      (Result.ofAssert (d.GetOk "cores").1.asInt).bind fun v =>
        .ok { config with Cores := some v }
    else .ok config).bind fun config =>
  (if (d.GetOk "memory").2 then
      (Result.ofAssert (d.GetOk "memory").1.asInt).bind fun v =>
        .ok { config with Memory := some v }
    else .ok config).bind fun config =>
  (if (d.GetOk "name").2 then
      (Result.ofAssert (d.GetOk "name").1.asString).bind fun v =>
        .ok { config with Name := some v }
    else .ok config).bind fun config =>
  (if (d.GetOk "smbios1").2 then
      (Result.ofAssert (d.GetOk "smbios1").1.asString).bind fun v =>
        .ok { config with SMBIOS1 := some v }
    else .ok config).bind fun config =>
  (if (d.GetOk "start_at_boot").2 then
      (Result.ofAssert (d.GetOk "start_at_boot").1.asBool).bind fun v =>
        .ok { config with StartAtBoot := some v }
    else .ok config).bind fun config =>
  (if (d.GetOk "ide_devices").2 then
      (Result.ofAssert (d.GetOk "ide_devices").1.asSet).bind fun devices =>
        parseIDEDevices lib devices config
    else .ok config).bind fun config =>
  (if (d.GetOk "network_devices").2 then
      (Result.ofAssert (d.GetOk "network_devices").1.asSet).bind fun devices =>
        parseNetworkDevices lib devices config
    else .ok config).bind fun config =>
  (if (d.GetOk "serial_devices").2 then
      (Result.ofAssert (d.GetOk "serial_devices").1.asSet).bind fun devices =>
        parseSerialDevices devices config
    else .ok config).bind fun config =>
  (if (d.GetOk "virtio_devices").2 then
      (Result.ofAssert (d.GetOk "virtio_devices").1.asSet).bind fun devices =>
        parseVirtIODevices devices config
    else .ok config).bind fun config =>
  .ok config

/-! ## The hypervisor client and the lifecycle functions -/

/-- The struct `goproxmox.VMStatus`, the field the provider reads. -/
structure VMStatus where
  Status : String
  deriving DecidableEq, Repr

/-- An entry of the list `GetStorageVolumes` returns. -/
structure Volume where
  VolumeId : String
  VMID : Int
  Size : String
  deriving DecidableEq, Repr

/-- The hypervisor client: what each call answers for its arguments. A call that returns
only an `error` answers `none` on success. -/
structure Client where
  CreateVM : String → Int → VMConfig → Option GoError
  CreateVMTemplate : String → Int → String → Option GoError
  StartVM : String → Int → Option GoError
  StopVM : String → Int → Option GoError
  DeleteVM : String → Int → Option GoError
  CloneVM : String → Int → Int → VMCloneConfig → Option GoError
  UpdateVM : String → Int → VMConfig → Bool → Option GoError
  GetVMConfig : String → Int → Except GoError VMConfig
  GetVMCurrentStatus : String → Int → Except GoError VMStatus
  CreateVolume : String → String → Int → String → String → Option GoError
  GetStorageVolumes : String → String → Except GoError (List Volume)
  DeleteVolume : String → String → String → Option GoError

/-- A step a lifecycle function takes that is visible outside it: a client call with its
arguments, or a `time.Sleep` of so many seconds. -/
inductive Call where
  | CreateVM (node : String) (vmID : Int) (config : VMConfig)
  | CreateVMTemplate (node : String) (vmID : Int) (arg : String)
  | StartVM (node : String) (vmID : Int)
  | StopVM (node : String) (vmID : Int)
  | DeleteVM (node : String) (vmID : Int)
  | CloneVM (node : String) (sourceID newID : Int) (c : VMCloneConfig)
  | UpdateVM (node : String) (vmID : Int) (config : VMConfig) (reboot : Bool)
  | GetVMConfig (node : String) (vmID : Int)
  | GetVMCurrentStatus (node : String) (vmID : Int)
  | CreateVolume (node storageName : String) (vmID : Int) (filename size : String)
  | GetStorageVolumes (node storageName : String)
  | DeleteVolume (node storageName volumeId : String)
  | Sleep (seconds : Nat)
  deriving DecidableEq, Repr

/-- Whether a call changes the hypervisor. -/
def Call.isMutating : Call → Bool
  | .CreateVM .. => true
  | .CreateVMTemplate .. => true
  | .StartVM .. => true
  | .StopVM .. => true
  | .DeleteVM .. => true
  | .CloneVM .. => true
  | .UpdateVM .. => true
  | .CreateVolume .. => true
  | .DeleteVolume .. => true
  | _ => false

/-- How a lifecycle function ends: it returns an `error` (`none` is `nil`) or panics. -/
inductive Outcome where
  | returned (err : Option GoError)
  | panicked
  deriving DecidableEq, Repr

/-- A finished run of a lifecycle function on a VM: the resource data it leaves, the
calls it issued in order, and how it ended. -/
structure Run where
  d : ResourceData
  trace : List Call
  out : Outcome
  deriving DecidableEq, Repr

/-- A run that follows the calls `pre`. -/
def Run.after (pre : List Call) (r : Run) : Run :=
  { r with trace := pre ++ r.trace }

/-- The function `resourceVMRead`. -/
def resourceVMRead (client : Client) (d : ResourceData) : Run :=
  match (d.Get "node").asString, (d.Get "vm_id").asInt with
  | some node, some vmID =>
    match client.GetVMConfig node vmID with
    | .error e =>
      match e with
      | .VMDoesNotExistError _ =>
        { d := d.SetId "", trace := [.GetVMConfig node vmID], out := .returned none }
      | .NodeDoesNotExistError _ =>
        { d := d.SetId "", trace := [.GetVMConfig node vmID], out := .returned none }
      | _ => { d := d, trace := [.GetVMConfig node vmID], out := .returned (some e) }
    | .ok config =>
      match config.Name with
      | some n =>
        { d := d.Set "name" (.str n), trace := [.GetVMConfig node vmID],
          out := .returned none }
      | none => { d := d, trace := [.GetVMConfig node vmID], out := .returned none }
  | _, _ => { d := d, trace := [], out := .panicked }

/-- The function `resourceVMDelete`. -/
def resourceVMDelete (client : Client) (d : ResourceData) : Run :=
  match (d.Get "node").asString, (d.Get "vm_id").asInt with
  | some node, some vmID =>
    match client.GetVMCurrentStatus node vmID with
    | .error e =>
      { d := d, trace := [.GetVMCurrentStatus node vmID], out := .returned (some e) }
    | .ok status =>
      if status.Status = "running" then
        match client.StopVM node vmID with
        | some e =>
          { d := d, trace := [.GetVMCurrentStatus node vmID, .StopVM node vmID],
            out := .returned (some e) }
        | none =>
          { d := d,
            trace := [.GetVMCurrentStatus node vmID, .StopVM node vmID, .Sleep 10,
              .DeleteVM node vmID],
            out := .returned (client.DeleteVM node vmID) }
      else
        { d := d, trace := [.GetVMCurrentStatus node vmID, .DeleteVM node vmID],
          out := .returned (client.DeleteVM node vmID) }
  | _, _ => { d := d, trace := [], out := .panicked }

/-- The update-only configuration `resourceVMCloneCreate` assembles after the clone:
network devices under the key `network_devices`, then `cores`, then `memory`. -/
def buildUpdateConfig (lib : Goproxmox) (d : ResourceData) : Result VMConfig :=
  let updateConfig : VMConfig := {}
  (if (d.GetOk "network_devices").2 then
      (Result.ofAssert (d.GetOk "network_devices").1.asSet).bind fun devices =>
        parseNetworkDevices lib devices updateConfig
    else .ok updateConfig).bind fun updateConfig =>
  (if (d.GetOk "cores").2 then
      (Result.ofAssert (d.GetOk "cores").1.asInt).bind fun v =>
        .ok { updateConfig with Cores := some v }
    else .ok updateConfig).bind fun updateConfig =>
  (if (d.GetOk "memory").2 then
      (Result.ofAssert (d.GetOk "memory").1.asInt).bind fun v =>
        .ok { updateConfig with Memory := some v }
    else .ok updateConfig).bind fun updateConfig =>
  .ok updateConfig

/-- The clone configuration `resourceVMCloneCreate` assembles: the name when `GetOk`
reports it, and `Full = true` when the clone block has a key `full`. -/
def buildCloneConfig (d : ResourceData) (cloneConfig : List (String × String)) :
    Result VMCloneConfig :=
  let c : VMCloneConfig := {}
  (if (d.GetOk "name").2 then
      (Result.ofAssert (d.GetOk "name").1.asString).bind fun v =>
        .ok { c with Name := some v }
    else .ok c).bind fun c =>
  (if (cloneConfig.lookup "full").isSome then Result.ok { c with Full := some true }
    else Result.ok c).bind fun c =>
  .ok c

/-- The source of the clone: `0`, or the `source_id` of the clone block read by
`strconv.Atoi` when the block has that key. -/
def cloneSourceID (cloneConfig : List (String × String)) : Except GoError Int :=
  match cloneConfig.lookup "source_id" with
  | some val => Atoi val
  | none => .ok 0

/-- The function `resourceVMCloneCreate`. -/
def resourceVMCloneCreate (lib : Goproxmox) (client : Client) (d : ResourceData) : Run :=
  match (d.Get "node").asString, (d.Get "vm_id").asInt, (d.Get "clone").asMap with
  | some node, some newID, some cloneConfig =>
    match cloneSourceID cloneConfig with
    | .error e => { d := d, trace := [], out := .returned (some e) }
    | .ok sourceID =>
      match buildCloneConfig d cloneConfig with
      | .panic => { d := d, trace := [], out := .panicked }
      | .err e => { d := d, trace := [], out := .returned (some e) }
      | .ok c =>
        match client.CloneVM node sourceID newID c with
        | some e =>
          { d := d, trace := [.CloneVM node sourceID newID c], out := .returned (some e) }
        | none =>
          let d1 := d.SetId (Itoa newID)
          let pre : List Call := [.CloneVM node sourceID newID c, .Sleep 5]
          match buildUpdateConfig lib d1 with
          | .panic => { d := d1, trace := pre, out := .panicked }
          | .err e => { d := d1, trace := pre, out := .returned (some e) }
          | .ok updateConfig =>
            if updateConfig.NetworkDevices ≠ none ∨ updateConfig.Cores ≠ none
                ∨ updateConfig.Memory ≠ none then
              match client.UpdateVM node newID updateConfig false with
              | some e =>
                { d := d1, trace := pre ++ [.UpdateVM node newID updateConfig false],
                  out := .returned (some e) }
              | none =>
                (resourceVMRead client d1).after
                  (pre ++ [.UpdateVM node newID updateConfig false])
            else (resourceVMRead client d1).after pre
  | _, _, _ => { d := d, trace := [], out := .panicked }

/-- The function `resourceVMCreate`. -/
def resourceVMCreate (lib : Goproxmox) (client : Client) (d : ResourceData) : Run :=
  if (d.GetOk "clone").2 then resourceVMCloneCreate lib client d
  else
    match (d.Get "node").asString, (d.Get "vm_id").asInt with
    | some node, some vmID =>
      match parseVMConfig lib d with
      | .panic => { d := d, trace := [], out := .panicked }
      | .err e => { d := d, trace := [], out := .returned (some e) }
      | .ok config =>
        match client.CreateVM node vmID config with
        | some e => { d := d, trace := [.CreateVM node vmID config], out := .returned (some e) }
        | none =>
          let d1 := d.SetId (Itoa vmID)
          let pre1 : List Call := [.CreateVM node vmID config]
          match (d1.Get "template").asBool with
          | none => { d := d1, trace := pre1, out := .panicked }
          | some isTemplate =>
            match (if isTemplate then client.CreateVMTemplate node vmID "" else none) with
            | some e =>
              { d := d1, trace := pre1 ++ [.CreateVMTemplate node vmID ""],
                out := .returned (some e) }
            | none =>
              let pre2 : List Call :=
                pre1 ++ (if isTemplate then [.CreateVMTemplate node vmID ""] else [])
              match (d1.Get "start_after_create").asBool with
              | none => { d := d1, trace := pre2, out := .panicked }
              | some startAfterCreate =>
                match (if startAfterCreate then client.StartVM node vmID else none) with
                | some e =>
                  { d := d1, trace := pre2 ++ [.StartVM node vmID],
                    out := .returned (some e) }
                | none =>
                  (resourceVMRead client d1).after
                    (pre2 ++ (if startAfterCreate then [.StartVM node vmID] else []))
    | _, _ => { d := d, trace := [], out := .panicked }

/-- The function `resourceVMUpdate`. -/
def resourceVMUpdate (lib : Goproxmox) (client : Client) (d : ResourceData) : Run :=
  match (d.Get "node").asString, (d.Get "vm_id").asInt with
  | some node, some vmID =>
    match parseVMConfig lib d with
    | .panic => { d := d, trace := [], out := .panicked }
    | .err e => { d := d, trace := [], out := .returned (some e) }
    | .ok config =>
      match client.UpdateVM node vmID config false with
      | some e =>
        { d := d, trace := [.UpdateVM node vmID config false], out := .returned (some e) }
      | none => (resourceVMRead client d).after [.UpdateVM node vmID config false]
  | _, _ => { d := d, trace := [], out := .panicked }

/-! ## The volume resource -/

/-- The resource data of a `proxmox_volume` resource: the persisted identifier and one
field per key of the schema declared by `resourceVolume`, all of them required. -/
structure VolumeData where
  id : String := ""
  node : String
  storage_name : String
  vm_id : Int
  filename : String
  size : String
  deriving DecidableEq, Repr

/-- The attribute table of a volume. -/
def VolumeData.attrs (d : VolumeData) : List (String × Value) :=
  [("node", .str d.node),
   ("storage_name", .str d.storage_name),
   ("vm_id", .int d.vm_id),
   ("filename", .str d.filename),
   ("size", .str d.size)]

/-- The read `d.Get(key)` on a volume. -/
def VolumeData.Get (d : VolumeData) (key : String) : Value :=
  (d.attrs.lookup key).getD .nil

/-- The write `d.SetId(id)` on a volume. -/
def VolumeData.SetId (d : VolumeData) (id : String) : VolumeData :=
  { d with id := id }

/-- The write `d.Set(key, value)` on a volume, for the four keys the provider writes. -/
def VolumeData.Set (d : VolumeData) (key : String) (v : Value) : VolumeData :=
  match key, v with
  | "node", .str s => { d with node := s }
  | "storage_name", .str s => { d with storage_name := s }
  | "vm_id", .int i => { d with vm_id := i }
  | "size", .str s => { d with size := s }
  | _, _ => d

/-- A finished run of a lifecycle function on a volume. -/
structure VolumeRun where
  d : VolumeData
  trace : List Call
  out : Outcome
  deriving DecidableEq, Repr

/-- The identifier format of `resourceVolumeCreate`: `fmt.Sprintf` with the verbs
`%s:%d/%s`. -/
def volumeIdOf (storageName : String) (vmID : Int) (filename : String) : String :=
  storageName ++ ":" ++ Itoa vmID ++ "/" ++ filename

/-- The first volume of the list whose `VolumeId` is `id`. -/
def findVolume (id : String) : List Volume → Option Volume
  | [] => none
  | volume :: rest => if volume.VolumeId = id then some volume else findVolume id rest

/-- The function `resourceVolumeRead`. -/
def resourceVolumeRead (client : Client) (d : VolumeData) : VolumeRun :=
  match (d.Get "node").asString, (d.Get "storage_name").asString with
  | some node, some storageName =>
    match client.GetStorageVolumes node storageName with
    | .error e =>
      { d := d, trace := [.GetStorageVolumes node storageName], out := .returned (some e) }
    | .ok volumes =>
      match findVolume d.id volumes with
      | some volume =>
        { d := (((d.Set "node" (.str node)).Set "storage_name" (.str storageName)).Set
            "vm_id" (.int volume.VMID)).Set "size" (.str volume.Size),
          trace := [.GetStorageVolumes node storageName], out := .returned none }
      | none =>
        { d := d.SetId "", trace := [.GetStorageVolumes node storageName],
          out := .returned none }
  | _, _ => { d := d, trace := [], out := .panicked }

/-- The function `resourceVolumeCreate`. -/
def resourceVolumeCreate (client : Client) (d : VolumeData) : VolumeRun :=
  match (d.Get "node").asString, (d.Get "storage_name").asString, (d.Get "vm_id").asInt,
    (d.Get "filename").asString, (d.Get "size").asString with
  | some node, some storageName, some vmID, some filename, some size =>
    match client.CreateVolume node storageName vmID filename size with
    | some e =>
      { d := d, trace := [.CreateVolume node storageName vmID filename size],
        out := .returned (some e) }
    | none =>
      let r := resourceVolumeRead client (d.SetId (volumeIdOf storageName vmID filename))
      { r with trace := .CreateVolume node storageName vmID filename size :: r.trace }
  | _, _, _, _, _ => { d := d, trace := [], out := .panicked }

/-! ## Auxiliary definitions for the statements -/

/-- What a copy guarded by `GetOk` leaves in an optional string field: the declared
value unless it is absent or empty. -/
def okString (o : Option String) : Option String :=
  if o.getD "" = "" then none else some (o.getD "")

/-- What a copy guarded by `GetOk` leaves in an optional integer field: the declared
value unless it is absent or zero. -/
def okInt (o : Option Int) : Option Int :=
  if o.getD 0 = 0 then none else some (o.getD 0)

/-- What a copy guarded by `GetOk` leaves in an optional boolean field: `true` when
`true` is declared, nothing otherwise. -/
def okBool (o : Option Bool) : Option Bool :=
  if o.getD false = false then none else some true

/-- A sample of the enum readers, for evaluating the code on concrete inputs: media
kinds `cdrom` and `disk`, card models `e1000` and `virtio`; anything else is an
error. -/
def sampleLib : Goproxmox where
  MediaTypeFromString := fun s =>
    if s = "cdrom" ∨ s = "disk" then .ok s else .error (.other ("invalid media type " ++ s))
  NetworkCardModelFromString := fun s =>
    if s = "e1000" ∨ s = "virtio" then .ok s
    else .error (.other ("invalid network card model " ++ s))

/-- Two device blocks of one category carry the same slot number. -/
def hasDuplicateSlot (d : ResourceData) : Prop :=
  ¬ (d.ide_device.map (fun b => b.number)).Nodup
    ∨ ¬ (d.network_device.map (fun b => b.number)).Nodup
    ∨ ¬ (d.serial_device.map (fun b => b.number)).Nodup
    ∨ ¬ (d.virtio_device.map (fun b => b.number)).Nodup

instance (d : ResourceData) : Decidable (hasDuplicateSlot d) := by
  unfold hasDuplicateSlot
  infer_instance

/-- Whether an enum reader accepted its input. -/
def accepted (r : Except GoError String) : Bool :=
  match r with
  | .ok _ => true
  | .error _ => false

/-- Every declared media kind and card model is one the library recognises. -/
def enumsValid (lib : Goproxmox) (d : ResourceData) : Bool :=
  d.ide_device.all (fun b => accepted (lib.MediaTypeFromString b.media))
    && d.network_device.all (fun b => accepted (lib.NetworkCardModelFromString b.model))

/-- The two error types `resourceVMRead` takes for an absent VM. -/
def GoError.isAbsence : GoError → Bool
  | .VMDoesNotExistError _ => true
  | .NodeDoesNotExistError _ => true
  | _ => false

/-- A client all of whose calls succeed: the status call answers `status`, the
configuration call answers `live`, and the volume list is `volumes`. -/
def okClient (status : String) (live : VMConfig) (volumes : List Volume) : Client where
  CreateVM := fun _ _ _ => none
  CreateVMTemplate := fun _ _ _ => none
  StartVM := fun _ _ => none
  StopVM := fun _ _ => none
  DeleteVM := fun _ _ => none
  CloneVM := fun _ _ _ _ => none
  UpdateVM := fun _ _ _ _ => none
  GetVMConfig := fun _ _ => .ok live
  GetVMCurrentStatus := fun _ _ => .ok { Status := status }
  CreateVolume := fun _ _ _ _ _ => none
  GetStorageVolumes := fun _ _ => .ok volumes
  DeleteVolume := fun _ _ _ => none

/-- A client whose configuration call fails with `e`; every other call succeeds. -/
def readFailsClient (e : GoError) : Client :=
  { okClient "stopped" {} [] with GetVMConfig := fun _ _ => .error e }

/-- A client whose create and clone calls fail with `e`; every other call succeeds. -/
def createFailsClient (e : GoError) : Client :=
  { okClient "stopped" {} [] with
    CreateVM := fun _ _ _ => some e
    CloneVM := fun _ _ _ _ => some e }

/-- The number a list of decimal digits denotes, most significant digit first. -/
def digitsValue (cs : List Char) : Nat :=
  cs.foldl (fun a c => a * 10 + (c.toNat - 48)) 0

/-! ## Theorems -/

/-! ### Reads of the attribute table -/

theorem GetOk_ide_devices (d : ResourceData) : d.GetOk "ide_devices" = (.nil, false) := rfl

theorem GetOk_network_devices (d : ResourceData) :
    d.GetOk "network_devices" = (.nil, false) := rfl

theorem GetOk_serial_devices (d : ResourceData) :
    d.GetOk "serial_devices" = (.nil, false) := rfl

theorem GetOk_virtio_devices (d : ResourceData) :
    d.GetOk "virtio_devices" = (.nil, false) := rfl

theorem GetOk_args (d : ResourceData) :
    d.GetOk "args" = (.str (d.args.getD ""), !(d.args.getD "" == "")) := rfl

theorem GetOk_cores (d : ResourceData) :
    d.GetOk "cores" = (.int (d.cores.getD 0), !(d.cores.getD 0 == 0)) := rfl

theorem GetOk_memory (d : ResourceData) :
    d.GetOk "memory" = (.int (d.memory.getD 0), !(d.memory.getD 0 == 0)) := rfl

theorem GetOk_name (d : ResourceData) :
    d.GetOk "name" = (.str (d.name.getD ""), !(d.name.getD "" == "")) := rfl

theorem GetOk_smbios1 (d : ResourceData) :
    d.GetOk "smbios1" = (.str (d.smbios1.getD ""), !(d.smbios1.getD "" == "")) := rfl

theorem GetOk_start_at_boot (d : ResourceData) :
    d.GetOk "start_at_boot"
      = (.bool (d.start_at_boot.getD false), !!(d.start_at_boot.getD false)) := rfl

theorem GetOk_clone (d : ResourceData) :
    d.GetOk "clone" = (.map (d.clone.getD []), !(d.clone.getD []).isEmpty) := rfl

theorem Get_node (d : ResourceData) : (d.Get "node").asString = some d.node := rfl

theorem Get_vm_id (d : ResourceData) : (d.Get "vm_id").asInt = some d.vm_id := rfl

theorem Get_clone (d : ResourceData) : (d.Get "clone").asMap = some (d.clone.getD []) := rfl

theorem Get_template (d : ResourceData) :
    (d.Get "template").asBool = some (d.template.getD false) := rfl

theorem Get_start_after_create (d : ResourceData) :
    (d.Get "start_after_create").asBool = some (d.start_after_create.getD false) := rfl

/-! ### `parseVMConfig` -/

/-- The configuration `parseVMConfig` returns, in closed form: it never fails, copies the
six scalars that are declared with a non-zero value, and leaves the four device maps
nil. -/
theorem parseVMConfig_eq (lib : Goproxmox) (d : ResourceData) :
    parseVMConfig lib d = .ok
      { Args := okString d.args, Cores := okInt d.cores, Memory := okInt d.memory,
        Name := okString d.name, SMBIOS1 := okString d.smbios1,
        StartAtBoot := okBool d.start_at_boot } := by
  simp only [parseVMConfig, GetOk_ide_devices, GetOk_network_devices, GetOk_serial_devices,
    GetOk_virtio_devices, GetOk_args, GetOk_cores, GetOk_memory, GetOk_name, GetOk_smbios1,
    GetOk_start_at_boot, okString, okInt, okBool]
  generalize d.args.getD "" = a
  generalize d.cores.getD 0 = c
  generalize d.memory.getD 0 = m
  generalize d.name.getD "" = n
  generalize d.smbios1.getD "" = s
  generalize d.start_at_boot.getD false = b
  by_cases h1 : a = "" <;> by_cases h2 : c = 0 <;> by_cases h3 : m = 0 <;>
    by_cases h4 : n = "" <;> by_cases h5 : s = "" <;> cases b <;>
    simp [h1, h2, h3, h4, h5, Result.bind, Result.ofAssert, Value.asString, Value.asInt,
      Value.asBool]

theorem okString_eq_some (o : Option String) (v : String) :
    okString o = some v ↔ (o = some v ∧ v ≠ "") := by
  cases o with
  | none => simp [okString]
  | some w =>
    by_cases h : w = ""
    · subst h; simp [okString]
      intro h1; exact h1.symm
    · simp only [okString, Option.getD_some, h, if_false, Option.some.injEq]
      constructor
      · intro e; subst e; exact ⟨rfl, h⟩
      · intro e; exact e.1

theorem okInt_eq_some (o : Option Int) (v : Int) :
    okInt o = some v ↔ (o = some v ∧ v ≠ 0) := by
  cases o with
  | none => simp [okInt]
  | some w =>
    by_cases h : w = 0
    · subst h; simp [okInt]
      intro h1; exact h1.symm
    · simp only [okInt, Option.getD_some, h, if_false, Option.some.injEq]
      constructor
      · intro e; subst e; exact ⟨rfl, h⟩
      · intro e; exact e.1

theorem okBool_eq_some (o : Option Bool) (v : Bool) :
    okBool o = some v ↔ (o = some v ∧ v = true) := by
  cases o with
  | none => simp [okBool]
  | some w => cases w <;> cases v <;> simp [okBool]

/-- C7 (amended): for every declared attribute set `parseVMConfig` succeeds, and each
scalar field of its result (args, cores, memory, name, smbios1, startAtBoot) holds a value
exactly when the attribute is declared with that value and the value is not the zero
value of its type (the empty string, `0`, `false`). -/
theorem parseVMConfig_scalars (lib : Goproxmox) (d : ResourceData) :
    ∃ config, parseVMConfig lib d = .ok config
      ∧ (∀ v, config.Args = some v ↔ (d.args = some v ∧ v ≠ ""))
      ∧ (∀ v, config.Cores = some v ↔ (d.cores = some v ∧ v ≠ 0))
      ∧ (∀ v, config.Memory = some v ↔ (d.memory = some v ∧ v ≠ 0))
      ∧ (∀ v, config.Name = some v ↔ (d.name = some v ∧ v ≠ ""))
      ∧ (∀ v, config.SMBIOS1 = some v ↔ (d.smbios1 = some v ∧ v ≠ ""))
      ∧ (∀ v, config.StartAtBoot = some v ↔ (d.start_at_boot = some v ∧ v = true)) :=
  ⟨_, parseVMConfig_eq lib d, okString_eq_some _, okInt_eq_some _, okInt_eq_some _,
    okString_eq_some _, okString_eq_some _, okBool_eq_some _⟩

/-- C7 (counterexample): with `cores = 0`, `memory = 0`, `name = ""` and
`start_at_boot = false` all declared, `parseVMConfig` returns the configuration in which
every field is unset, the same as when none of them is declared. -/
theorem parseVMConfig_declared_zero_is_unset :
    parseVMConfig sampleLib
        { node := "pve1", vm_id := 100, cores := some 0, memory := some 0, name := some "",
          start_at_boot := some false }
      = .ok { Args := none, Cores := none, Memory := none, Name := none, SMBIOS1 := none,
              StartAtBoot := none }
    ∧ parseVMConfig sampleLib { node := "pve1", vm_id := 100 }
      = .ok { Args := none, Cores := none, Memory := none, Name := none, SMBIOS1 := none,
              StartAtBoot := none } := by
  constructor <;> rfl

/-- C8 (failing input): with one valid block declared in each of `ide_device`,
`network_device`, `serial_device` and `virtio_device`, `parseVMConfig` succeeds with all
four device maps nil: it reads the keys `ide_devices`, `network_devices`,
`serial_devices` and `virtio_devices`, which the schema does not declare. -/
theorem parseVMConfig_drops_declared_devices :
    parseVMConfig sampleLib
        { node := "pve1", vm_id := 100,
          ide_device := [{ number := 0, file := "local:iso/debian.iso", media := "cdrom" }],
          network_device := [{ number := 0, model := "virtio", bridge := "vmbr0" }],
          serial_device := [{ number := 0, device := "socket" }],
          virtio_device := [{ number := 0, file := "local-lvm:vm-100-disk-0", size := "8G" }] }
      = .ok { IDEDevices := none, NetworkDevices := none, SerialDevices := none,
              VirtIODevices := none } := by
  rfl

/-- C9 (counterexample): two `ide_device` blocks that both carry slot number `0` do not
make `parseVMConfig` fail: it returns a configuration and no error. -/
theorem parseVMConfig_duplicate_slot_no_error :
    parseVMConfig sampleLib
        { node := "pve1", vm_id := 100,
          ide_device := [{ number := 0, file := "local:iso/a.iso", media := "cdrom" },
                         { number := 0, file := "local:iso/b.iso", media := "cdrom" }] }
      = .ok { } := by
  rfl

theorem accepted_ok (r : Except GoError String) (h : accepted r = true) : ∃ m, r = .ok m := by
  cases r with
  | ok m => exact ⟨m, rfl⟩
  | error e => simp [accepted] at h

theorem parseIDEDevices_ok (lib : Goproxmox) (bs : List IDEBlock)
    (h : bs.all (fun b => accepted (lib.MediaTypeFromString b.media)) = true)
    (config : VMConfig) :
    ∃ config', parseIDEDevices lib (bs.map IDEBlock.toElem) config = .ok config' := by
  induction bs generalizing config with
  | nil => exact ⟨config, rfl⟩
  | cons b rest ih =>
    simp only [List.all_cons, Bool.and_eq_true] at h
    obtain ⟨m, hm⟩ := accepted_ok _ h.1
    have hnum : elemInt b.toElem "number" = .ok b.number := rfl
    have hmedia : elemString b.toElem "media" = .ok b.media := rfl
    have hfile : elemString b.toElem "file" = .ok b.file := rfl
    simp only [List.map_cons, parseIDEDevices, hnum, hmedia, hfile, Result.bind, hm]
    exact ih h.2 _

theorem parseNetworkDevice_ok (lib : Goproxmox) (b : NetworkBlock)
    (h : accepted (lib.NetworkCardModelFromString b.model) = true) :
    ∃ device, parseNetworkDevice lib b.toElem = .ok (b.number, device) := by
  obtain ⟨m, hm⟩ := accepted_ok _ h
  have hmodel : elemString b.toElem "model" = .ok b.model := rfl
  have hnum : elemInt b.toElem "number" = .ok b.number := rfl
  have hbridge : b.toElem.lookup "bridge" = some (.str b.bridge) := rfl
  have hmac : b.toElem.lookup "macaddr" = some (.str b.macaddr) := rfl
  simp only [parseNetworkDevice, hmodel, hnum, hbridge, hmac, Result.bind, hm, Prim.asString,
    Result.ofAssert]
  by_cases hz : Prim.str b.macaddr = Prim.str ""
  · simp [hz]
  · simp [hz]

theorem parseNetworkDevices_ok (lib : Goproxmox) (bs : List NetworkBlock)
    (h : bs.all (fun b => accepted (lib.NetworkCardModelFromString b.model)) = true)
    (config : VMConfig) :
    ∃ config', parseNetworkDevices lib (bs.map NetworkBlock.toElem) config = .ok config' := by
  induction bs generalizing config with
  | nil => exact ⟨config, rfl⟩
  | cons b rest ih =>
    simp only [List.all_cons, Bool.and_eq_true] at h
    obtain ⟨device, hd⟩ := parseNetworkDevice_ok lib b h.1
    simp only [List.map_cons, parseNetworkDevices, hd, Result.bind]
    exact ih h.2 _

theorem parseSerialDevices_ok (bs : List SerialBlock) (config : VMConfig) :
    ∃ config', parseSerialDevices (bs.map SerialBlock.toElem) config = .ok config' := by
  induction bs generalizing config with
  | nil => exact ⟨config, rfl⟩
  | cons b rest ih =>
    have hnum : elemInt b.toElem "number" = .ok b.number := rfl
    have hdev : elemString b.toElem "device" = .ok b.device := rfl
    simp only [List.map_cons, parseSerialDevices, hnum, hdev, Result.bind]
    exact ih _

theorem parseVirtIODevices_ok (bs : List VirtBlock) (config : VMConfig) :
    ∃ config', parseVirtIODevices (bs.map VirtBlock.toElem) config = .ok config' := by
  induction bs generalizing config with
  | nil => exact ⟨config, rfl⟩
  | cons b rest ih =>
    have hnum : elemInt b.toElem "number" = .ok b.number := rfl
    have hfile : elemString b.toElem "file" = .ok b.file := rfl
    have hsize : elemString b.toElem "size" = .ok b.size := rfl
    have hbackup : b.toElem.lookup "backup" = some (.bool b.backup) := rfl
    have hcache : b.toElem.lookup "cache" = some (.str b.cache) := rfl
    simp only [List.map_cons, parseVirtIODevices, hnum, hfile, hsize, hbackup, hcache,
      Result.bind, Prim.asBool, Prim.asString, Result.ofAssert]
    by_cases hz : Prim.str b.cache = Prim.str ""
    · simp only [hz, ne_eq, not_true_eq_false, if_false, reduceCtorEq, not_false_eq_true, if_true]
      exact ih _
    · simp only [hz, ne_eq, not_false_eq_true, if_true, reduceCtorEq]
      exact ih _

/-- C9 (amended): `parseVMConfig` has no duplicate-slot check. For every declared
attribute set in which two device blocks of one category carry the same slot number and
whose media kinds and card models are all recognised, `parseVMConfig` returns a
configuration and no error; and each of the four device loops, run on the declared blocks
of its category, returns a configuration and no error as well. -/
theorem parseVMConfig_duplicate_slot_ok (lib : Goproxmox) (d : ResourceData)
    (hdup : hasDuplicateSlot d) (hvalid : enumsValid lib d = true) :
    (∃ config, parseVMConfig lib d = .ok config)
    ∧ (∀ config, ∃ config',
        parseIDEDevices lib (d.ide_device.map IDEBlock.toElem) config = .ok config')
    ∧ (∀ config, ∃ config',
        parseNetworkDevices lib (d.network_device.map NetworkBlock.toElem) config = .ok config')
    ∧ (∀ config, ∃ config',
        parseSerialDevices (d.serial_device.map SerialBlock.toElem) config = .ok config')
    ∧ (∀ config, ∃ config',
        parseVirtIODevices (d.virtio_device.map VirtBlock.toElem) config = .ok config') := by
  simp only [enumsValid, Bool.and_eq_true] at hvalid
  exact ⟨⟨_, parseVMConfig_eq lib d⟩, parseIDEDevices_ok lib _ hvalid.1,
    parseNetworkDevices_ok lib _ hvalid.2, parseSerialDevices_ok _, parseVirtIODevices_ok _⟩

/-- C9 (witness): the amended statement at two IDE blocks in slot `0`. -/
theorem parseVMConfig_duplicate_slot_ok_witness :
    hasDuplicateSlot
        { node := "pve1", vm_id := 100,
          ide_device := [{ number := 0, file := "local:iso/a.iso", media := "cdrom" },
                         { number := 0, file := "local:iso/b.iso", media := "cdrom" }] }
      ∧ ∃ config, parseVMConfig sampleLib
          { node := "pve1", vm_id := 100,
            ide_device := [{ number := 0, file := "local:iso/a.iso", media := "cdrom" },
                           { number := 0, file := "local:iso/b.iso", media := "cdrom" }] }
          = .ok config :=
  ⟨by decide, (parseVMConfig_duplicate_slot_ok sampleLib _ (by decide) (by decide)).1⟩

/-! ### Delete and read -/

/-- C1: when the status, stop and delete calls succeed, `resourceVMDelete` returns no
error; on status `running` its calls are the status call, `StopVM`, a wait, `DeleteVM`,
in that order; on any other status they are the status call and `DeleteVM` only. In both
cases `DeleteVM(node, id)` is issued exactly once and is the last call. -/
theorem resourceVMDelete_sequence (client : Client) (d : ResourceData) (status : VMStatus)
    (hstatus : client.GetVMCurrentStatus d.node d.vm_id = .ok status)
    (hstop : client.StopVM d.node d.vm_id = none)
    (hdelete : client.DeleteVM d.node d.vm_id = none) :
    (resourceVMDelete client d).out = .returned none
    ∧ (status.Status = "running" →
        (resourceVMDelete client d).trace
          = [.GetVMCurrentStatus d.node d.vm_id, .StopVM d.node d.vm_id, .Sleep 10,
             .DeleteVM d.node d.vm_id])
    ∧ (status.Status ≠ "running" →
        (resourceVMDelete client d).trace
          = [.GetVMCurrentStatus d.node d.vm_id, .DeleteVM d.node d.vm_id])
    ∧ (resourceVMDelete client d).trace.count (.DeleteVM d.node d.vm_id) = 1
    ∧ (resourceVMDelete client d).trace.getLast? = some (.DeleteVM d.node d.vm_id) := by
  by_cases hrun : status.Status = "running"
  · simp [resourceVMDelete, Get_node, Get_vm_id, hstatus, hstop, hdelete, hrun]
  · simp [resourceVMDelete, Get_node, Get_vm_id, hstatus, hstop, hdelete, hrun]

/-- C1 (witness): delete of a running VM and of a stopped VM on a client whose calls
succeed. -/
theorem resourceVMDelete_sequence_witness :
    ((resourceVMDelete (okClient "running" {} []) { node := "pve1", vm_id := 100 }).out
        = .returned none
      ∧ ("running" = "running" →
          (resourceVMDelete (okClient "running" {} []) { node := "pve1", vm_id := 100 }).trace
            = [.GetVMCurrentStatus "pve1" 100, .StopVM "pve1" 100, .Sleep 10,
               .DeleteVM "pve1" 100])
      ∧ ("running" ≠ "running" →
          (resourceVMDelete (okClient "running" {} []) { node := "pve1", vm_id := 100 }).trace
            = [.GetVMCurrentStatus "pve1" 100, .DeleteVM "pve1" 100])
      ∧ (resourceVMDelete (okClient "running" {} []) { node := "pve1", vm_id := 100 }).trace.count
            (.DeleteVM "pve1" 100) = 1
      ∧ (resourceVMDelete (okClient "running" {} []) { node := "pve1", vm_id := 100 }).trace.getLast?
            = some (.DeleteVM "pve1" 100))
    ∧ (resourceVMDelete (okClient "stopped" {} []) { node := "pve1", vm_id := 100 }).trace
        = [.GetVMCurrentStatus "pve1" 100, .DeleteVM "pve1" 100] :=
  ⟨resourceVMDelete_sequence (okClient "running" {} []) { node := "pve1", vm_id := 100 }
      { Status := "running" } rfl rfl rfl,
    (resourceVMDelete_sequence (okClient "stopped" {} []) { node := "pve1", vm_id := 100 }
      { Status := "stopped" } rfl rfl rfl).2.2.1 (by decide)⟩

/-- C2: `resourceVMRead` issues the one call `GetVMConfig(node, id)` and classifies its
result. On a VM-does-not-exist or node-does-not-exist error it returns no error and sets
the identifier to the empty string, leaving the attributes alone; on any other error it
returns that error and leaves the resource data as it was; on success it returns no
error, keeps the identifier and writes the live name, when there is one, to the attribute
`name` and nothing else. Hence, for a resource with a non-empty identifier, it returns no
error with the identifier empty exactly when the call failed with one of the two absence
errors. -/
theorem resourceVMRead_classifies (client : Client) (d : ResourceData) :
    (resourceVMRead client d).trace = [.GetVMConfig d.node d.vm_id]
    ∧ (∀ e, client.GetVMConfig d.node d.vm_id = .error e → e.isAbsence = true →
        (resourceVMRead client d).out = .returned none
          ∧ (resourceVMRead client d).d = { d with id := "" })
    ∧ (∀ e, client.GetVMConfig d.node d.vm_id = .error e → e.isAbsence = false →
        (resourceVMRead client d).out = .returned (some e)
          ∧ (resourceVMRead client d).d = d)
    ∧ (∀ live, client.GetVMConfig d.node d.vm_id = .ok live →
        (resourceVMRead client d).out = .returned none
          ∧ (resourceVMRead client d).d.id = d.id
          ∧ (resourceVMRead client d).d
              = match live.Name with
                | some n => { d with name := some n }
                | none => d)
    ∧ (d.id ≠ "" →
        (((resourceVMRead client d).out = .returned none ∧ (resourceVMRead client d).d.id = "")
          ↔ ∃ e, client.GetVMConfig d.node d.vm_id = .error e ∧ e.isAbsence = true)) := by
  cases hget : client.GetVMConfig d.node d.vm_id with
  | error e =>
    cases e <;>
      simp [resourceVMRead, Get_node, Get_vm_id, hget, GoError.isAbsence,
        ResourceData.SetId]
  | ok live =>
    cases hname : live.Name <;>
      simp [resourceVMRead, Get_node, Get_vm_id, hget, hname, ResourceData.Set]

/-- C2 (witness): a node-does-not-exist error during read clears the identifier `100`
and returns no error. -/
theorem resourceVMRead_classifies_witness :
    (resourceVMRead (readFailsClient (.NodeDoesNotExistError "node pve1 does not exist"))
        { id := "100", node := "pve1", vm_id := 100 }).out = .returned none
    ∧ (resourceVMRead (readFailsClient (.NodeDoesNotExistError "node pve1 does not exist"))
        { id := "100", node := "pve1", vm_id := 100 }).d
      = { id := "", node := "pve1", vm_id := 100 } :=
  (resourceVMRead_classifies
      (readFailsClient (.NodeDoesNotExistError "node pve1 does not exist"))
      { id := "100", node := "pve1", vm_id := 100 }).2.1
    (.NodeDoesNotExistError "node pve1 does not exist") rfl rfl

/-! ### Create -/

/-- The update-only configuration in closed form: `cores` and `memory` when declared with
a non-zero value, and a nil map of network devices. -/
theorem buildUpdateConfig_eq (lib : Goproxmox) (d : ResourceData) :
    buildUpdateConfig lib d = .ok { Cores := okInt d.cores, Memory := okInt d.memory } := by
  simp only [buildUpdateConfig, GetOk_network_devices, GetOk_cores, GetOk_memory, okInt]
  generalize d.cores.getD 0 = c
  generalize d.memory.getD 0 = m
  by_cases h2 : c = 0 <;> by_cases h3 : m = 0 <;>
    simp [h2, h3, Result.bind, Result.ofAssert, Value.asInt]

/-- The clone configuration in closed form. -/
theorem buildCloneConfig_eq (d : ResourceData) (cloneConfig : List (String × String)) :
    buildCloneConfig d cloneConfig
      = .ok { Name := okString d.name,
              Full := if (cloneConfig.lookup "full").isSome then some true else none } := by
  simp only [buildCloneConfig, GetOk_name, okString]
  generalize d.name.getD "" = n
  by_cases h1 : n = "" <;> cases (cloneConfig.lookup "full") <;>
    simp [h1, Result.bind, Result.ofAssert, Value.asString]

/-- A read that succeeds leaves the identifier alone and returns no error. -/
theorem resourceVMRead_ok (client : Client) (d : ResourceData) (live : VMConfig)
    (hread : client.GetVMConfig d.node d.vm_id = .ok live) :
    (resourceVMRead client d).trace = [.GetVMConfig d.node d.vm_id]
      ∧ (resourceVMRead client d).d.id = d.id
      ∧ (resourceVMRead client d).out = .returned none := by
  cases hname : live.Name <;>
    simp [resourceVMRead, Get_node, Get_vm_id, hread, hname, ResourceData.Set]

/-- C3: for a declared spec without a clone block and a client whose calls succeed,
`resourceVMCreate` issues `CreateVM(node, vm_id, config)` first, with the configuration
`parseVMConfig` built, then `CreateVMTemplate(node, vm_id)` exactly when `template` is
true, then `StartVM(node, vm_id)` exactly when `start_after_create` is true, then the read
of the live configuration; it returns no error and the identifier it leaves is the
decimal string of `vm_id`. -/
theorem resourceVMCreate_sequence (lib : Goproxmox) (client : Client) (d : ResourceData)
    (live : VMConfig)
    (hclone : d.clone = none)
    (hcreate : ∀ config, client.CreateVM d.node d.vm_id config = none)
    (htemplate : client.CreateVMTemplate d.node d.vm_id "" = none)
    (hstart : client.StartVM d.node d.vm_id = none)
    (hread : client.GetVMConfig d.node d.vm_id = .ok live) :
    ∃ config, parseVMConfig lib d = .ok config
      ∧ (resourceVMCreate lib client d).trace
          = [.CreateVM d.node d.vm_id config]
            ++ (if d.template = some true then [.CreateVMTemplate d.node d.vm_id ""] else [])
            ++ (if d.start_after_create = some true then [.StartVM d.node d.vm_id] else [])
            ++ [.GetVMConfig d.node d.vm_id]
      ∧ (resourceVMCreate lib client d).d.id = Itoa d.vm_id
      ∧ (resourceVMCreate lib client d).out = .returned none := by
  refine ⟨_, parseVMConfig_eq lib d, ?_⟩
  have hr := resourceVMRead_ok client (d.SetId (Itoa d.vm_id)) live hread
  have hid : (d.SetId (Itoa d.vm_id)).id = Itoa d.vm_id := rfl
  rw [hid] at hr
  obtain ⟨hr1, hr2, hr3⟩ := hr
  have hn : (d.SetId (Itoa d.vm_id)).node = d.node := rfl
  have hv : (d.SetId (Itoa d.vm_id)).vm_id = d.vm_id := rfl
  rw [hn, hv] at hr1
  rcases ht : d.template with _ | _ | _ <;>
    rcases hs : d.start_after_create with _ | _ | _ <;>
    simp [resourceVMCreate, GetOk_clone, hclone, Get_node, Get_vm_id, parseVMConfig_eq,
      hcreate, htemplate, hstart, Get_template, Get_start_after_create, ResourceData.SetId,
      ht, hs, Run.after] <;>
    simp_all [ResourceData.SetId]

/-- C3 (witness): the declared spec with node `pve1`, `vm_id` 100, 2 cores and 2048 MiB
and no clone block. The configuration passed to `CreateVM` has only cores and memory set
and the identifier is `100`. -/
theorem resourceVMCreate_sequence_witness :
    (∃ config,
      parseVMConfig sampleLib { node := "pve1", vm_id := 100, cores := some 2, memory := some 2048 }
        = .ok config
      ∧ (resourceVMCreate sampleLib (okClient "stopped" {} [])
          { node := "pve1", vm_id := 100, cores := some 2, memory := some 2048 }).trace
          = [.CreateVM "pve1" 100 config] ++ [] ++ [] ++ [.GetVMConfig "pve1" 100]
      ∧ (resourceVMCreate sampleLib (okClient "stopped" {} [])
          { node := "pve1", vm_id := 100, cores := some 2, memory := some 2048 }).d.id
          = Itoa 100
      ∧ (resourceVMCreate sampleLib (okClient "stopped" {} [])
          { node := "pve1", vm_id := 100, cores := some 2, memory := some 2048 }).out
          = .returned none)
    ∧ parseVMConfig sampleLib { node := "pve1", vm_id := 100, cores := some 2, memory := some 2048 }
        = .ok { Cores := some 2, Memory := some 2048 }
    ∧ Itoa 100 = "100" :=
  ⟨resourceVMCreate_sequence sampleLib (okClient "stopped" {} [])
      { node := "pve1", vm_id := 100, cores := some 2, memory := some 2048 } {} rfl
      (fun _ => rfl) rfl rfl rfl,
    rfl, by decide⟩

/-- C6: if the `CreateVM` call of a fresh create, or the `CloneVM` call of a clone-create,
returns an error, the create operation returns that error, leaves the resource data, and
so the identifier, as it was, and that call is the only hypervisor call it issued. Hence
when the identifier was unset before and is non-empty after `resourceVMCreate`, the
`CreateVM` call, or on the clone path the `CloneVM` call, returned no error. -/
theorem resourceVMCreate_call_error (lib : Goproxmox) (client : Client) (d : ResourceData) :
    (∀ config e, d.clone.getD [] = [] → parseVMConfig lib d = .ok config →
        client.CreateVM d.node d.vm_id config = some e →
        resourceVMCreate lib client d
          = { d := d, trace := [.CreateVM d.node d.vm_id config], out := .returned (some e) })
    ∧ (∀ sourceID c e, cloneSourceID (d.clone.getD []) = .ok sourceID →
        buildCloneConfig d (d.clone.getD []) = .ok c →
        client.CloneVM d.node sourceID d.vm_id c = some e →
        resourceVMCloneCreate lib client d
          = { d := d, trace := [.CloneVM d.node sourceID d.vm_id c],
              out := .returned (some e) })
    ∧ (d.id = "" → (resourceVMCreate lib client d).d.id ≠ "" →
        (d.clone.getD [] = []
          ∧ ∃ config, parseVMConfig lib d = .ok config
              ∧ client.CreateVM d.node d.vm_id config = none)
        ∨ (d.clone.getD [] ≠ []
          ∧ ∃ sourceID c, cloneSourceID (d.clone.getD []) = .ok sourceID
              ∧ buildCloneConfig d (d.clone.getD []) = .ok c
              ∧ client.CloneVM d.node sourceID d.vm_id c = none)) := by
  refine ⟨?_, ?_, ?_⟩
  · intro config e hclone hparse hcreate
    simp [resourceVMCreate, GetOk_clone, hclone, Get_node, Get_vm_id, hparse, hcreate]
  · intro sourceID c e hsrc hc hclone
    simp [resourceVMCloneCreate, Get_node, Get_vm_id, Get_clone, hsrc, hc, hclone]
  · intro hid hne
    by_cases hclone : d.clone.getD [] = []
    · left
      refine ⟨hclone, _, parseVMConfig_eq lib d, ?_⟩
      cases hcreate : client.CreateVM d.node d.vm_id
          { Args := okString d.args, Cores := okInt d.cores, Memory := okInt d.memory,
            Name := okString d.name, SMBIOS1 := okString d.smbios1,
            StartAtBoot := okBool d.start_at_boot } with
      | none => rfl
      | some e =>
        exfalso
        apply hne
        simp [resourceVMCreate, GetOk_clone, hclone, Get_node, Get_vm_id, parseVMConfig_eq,
          hcreate, hid]
    · right
      refine ⟨hclone, ?_⟩
      have hrun : resourceVMCreate lib client d = resourceVMCloneCreate lib client d := by
        simp [resourceVMCreate, GetOk_clone, hclone]
      rw [hrun] at hne
      cases hsrc : cloneSourceID (d.clone.getD []) with
      | error e =>
        exfalso
        apply hne
        simp [resourceVMCloneCreate, Get_node, Get_vm_id, Get_clone, hsrc, hid]
      | ok sourceID =>
        refine ⟨sourceID, _, rfl, buildCloneConfig_eq d _, ?_⟩
        cases hc : client.CloneVM d.node sourceID d.vm_id
            { Name := okString d.name,
              Full := if ((d.clone.getD []).lookup "full").isSome then some true else none } with
        | none => rfl
        | some e =>
          exfalso
          apply hne
          simp [resourceVMCloneCreate, Get_node, Get_vm_id, Get_clone, hsrc,
            buildCloneConfig_eq, hc, hid]

/-- C6 (witness): a fresh create and a clone-create on a client whose create and clone
calls fail with a server error. -/
theorem resourceVMCreate_call_error_witness :
    resourceVMCreate sampleLib (createFailsClient (.other "500 internal error"))
        { node := "pve1", vm_id := 100, cores := some 2 }
      = { d := { node := "pve1", vm_id := 100, cores := some 2 },
          trace := [.CreateVM "pve1" 100 { Cores := some 2 }],
          out := .returned (some (.other "500 internal error")) }
    ∧ resourceVMCloneCreate sampleLib (createFailsClient (.other "500 internal error"))
        { node := "pve1", vm_id := 200, clone := some [("source_id", "100")] }
      = { d := { node := "pve1", vm_id := 200, clone := some [("source_id", "100")] },
          trace := [.CloneVM "pve1" 100 200 {}],
          out := .returned (some (.other "500 internal error")) } :=
  ⟨(resourceVMCreate_call_error sampleLib (createFailsClient (.other "500 internal error"))
      { node := "pve1", vm_id := 100, cores := some 2 }).1 { Cores := some 2 }
      (.other "500 internal error") rfl rfl rfl,
   (resourceVMCreate_call_error sampleLib (createFailsClient (.other "500 internal error"))
      { node := "pve1", vm_id := 200, clone := some [("source_id", "100")] }).2.1 100 {}
      (.other "500 internal error") rfl rfl rfl⟩

/-! ### Clone-create -/

theorem Run.after_trace (pre : List Call) (r : Run) : (r.after pre).trace = pre ++ r.trace := rfl

theorem Run.after_d (pre : List Call) (r : Run) : (r.after pre).d = r.d := rfl

theorem Run.after_out (pre : List Call) (r : Run) : (r.after pre).out = r.out := rfl

theorem okInt_ne_none (o : Option Int) : okInt o ≠ none ↔ ∃ v, o = some v ∧ v ≠ 0 := by
  cases o with
  | none => simp [okInt]
  | some w => by_cases h : w = 0 <;> simp [okInt, h]

/-- C4 (amended): for a declared spec whose clone block has a `source_id` that
`strconv.Atoi` reads as `sourceID`, and a client whose calls succeed,
`resourceVMCloneCreate` issues `CloneVM(node, sourceID, vm_id, cloneConfig)` as its first
call, leaves the decimal string of `vm_id` as identifier and returns no error. After the
clone and the wait it issues `UpdateVM(node, vm_id, updateConfig, false)` exactly when the
update-only configuration it built is non-empty; it does so whenever `cores` or `memory`
is declared with a non-zero value, and it issues no update when none of network devices,
cores and memory is declared. -/
theorem resourceVMCloneCreate_sequence (lib : Goproxmox) (client : Client) (d : ResourceData)
    (s : String) (sourceID : Int) (live : VMConfig)
    (hsrc : (d.clone.getD []).lookup "source_id" = some s)
    (hparse : Atoi s = .ok sourceID)
    (hclone : ∀ c, client.CloneVM d.node sourceID d.vm_id c = none)
    (hupdate : ∀ config, client.UpdateVM d.node d.vm_id config false = none)
    (hread : client.GetVMConfig d.node d.vm_id = .ok live) :
    (resourceVMCloneCreate lib client d).trace.head?
        = some (.CloneVM d.node sourceID d.vm_id
            { Name := okString d.name,
              Full := if ((d.clone.getD []).lookup "full").isSome then some true else none })
    ∧ (resourceVMCloneCreate lib client d).d.id = Itoa d.vm_id
    ∧ (resourceVMCloneCreate lib client d).out = .returned none
    ∧ (∃ updateConfig, buildUpdateConfig lib (d.SetId (Itoa d.vm_id)) = .ok updateConfig
        ∧ (.UpdateVM d.node d.vm_id updateConfig false ∈ (resourceVMCloneCreate lib client d).trace
            ↔ (updateConfig.NetworkDevices ≠ none ∨ updateConfig.Cores ≠ none
                ∨ updateConfig.Memory ≠ none))
        ∧ (((∃ v, d.cores = some v ∧ v ≠ 0) ∨ (∃ v, d.memory = some v ∧ v ≠ 0)) →
            updateConfig.Cores = okInt d.cores ∧ updateConfig.Memory = okInt d.memory
            ∧ (resourceVMCloneCreate lib client d).trace
              = [.CloneVM d.node sourceID d.vm_id
                  { Name := okString d.name,
                    Full := if ((d.clone.getD []).lookup "full").isSome then some true
                      else none },
                 .Sleep 5, .UpdateVM d.node d.vm_id updateConfig false,
                 .GetVMConfig d.node d.vm_id]))
    ∧ ((d.network_device = [] ∧ d.cores = none ∧ d.memory = none) →
        (resourceVMCloneCreate lib client d).trace
          = [.CloneVM d.node sourceID d.vm_id
              { Name := okString d.name,
                Full := if ((d.clone.getD []).lookup "full").isSome then some true else none },
             .Sleep 5, .GetVMConfig d.node d.vm_id]) := by
  have hr := resourceVMRead_ok client (d.SetId (Itoa d.vm_id)) live hread
  have hid : (d.SetId (Itoa d.vm_id)).id = Itoa d.vm_id := rfl
  have hn : (d.SetId (Itoa d.vm_id)).node = d.node := rfl
  have hv : (d.SetId (Itoa d.vm_id)).vm_id = d.vm_id := rfl
  have hco : (d.SetId (Itoa d.vm_id)).cores = d.cores := rfl
  have hme : (d.SetId (Itoa d.vm_id)).memory = d.memory := rfl
  rw [hid, hn, hv] at hr
  obtain ⟨hr1, hr2, hr3⟩ := hr
  by_cases hne : okInt d.cores ≠ none ∨ okInt d.memory ≠ none
  · have hrun : resourceVMCloneCreate lib client d
        = (resourceVMRead client (d.SetId (Itoa d.vm_id))).after
            [.CloneVM d.node sourceID d.vm_id
                { Name := okString d.name,
                  Full := if ((d.clone.getD []).lookup "full").isSome then some true
                    else none },
              .Sleep 5,
              .UpdateVM d.node d.vm_id { Cores := okInt d.cores, Memory := okInt d.memory }
                false] := by
      simp [resourceVMCloneCreate, Get_node, Get_vm_id, Get_clone, cloneSourceID, hsrc, hparse,
        buildCloneConfig_eq, hclone, buildUpdateConfig_eq, hco, hme, hne, hupdate]
    rw [hrun]
    simp [Run.after_trace, Run.after_d, Run.after_out, hr1, hr2, hr3, buildUpdateConfig_eq,
      hco, hme, hne]
    intro _ hc hm
    simp [hc, hm, okInt] at hne
  · have hrun : resourceVMCloneCreate lib client d
        = (resourceVMRead client (d.SetId (Itoa d.vm_id))).after
            [.CloneVM d.node sourceID d.vm_id
                { Name := okString d.name,
                  Full := if ((d.clone.getD []).lookup "full").isSome then some true
                    else none },
              .Sleep 5] := by
      simp [resourceVMCloneCreate, Get_node, Get_vm_id, Get_clone, cloneSourceID, hsrc, hparse,
        buildCloneConfig_eq, hclone, buildUpdateConfig_eq, hco, hme, hne, hupdate]
    rw [hrun]
    simp [Run.after_trace, Run.after_d, Run.after_out, hr1, hr2, hr3, buildUpdateConfig_eq,
      hco, hme, hne]
    have hne2 := hne
    rw [okInt_ne_none, okInt_ne_none] at hne2
    push_neg at hne hne2
    exact ⟨hne, fun x hx => hne2.1 x hx, fun x hx => hne2.2 x hx⟩

/-- C4 (witness): the clone block with `source_id` `100` and `vm_id` 200, nothing else
declared: `CloneVM(pve1, 100, 200, {})`, the wait, the read, and no update. -/
theorem resourceVMCloneCreate_sequence_witness :
    (resourceVMCloneCreate sampleLib (okClient "stopped" {} [])
        { node := "pve1", vm_id := 200, clone := some [("source_id", "100")] }).trace
      = [.CloneVM "pve1" 100 200 {}, .Sleep 5, .GetVMConfig "pve1" 200] :=
  (resourceVMCloneCreate_sequence sampleLib (okClient "stopped" {} [])
      { node := "pve1", vm_id := 200, clone := some [("source_id", "100")] } "100" 100 {}
      rfl rfl (fun _ => rfl) (fun _ => rfl) rfl).2.2.2.2 ⟨rfl, rfl, rfl⟩

/-- C4 (counterexample): with `cores = 0` declared next to the clone block, the
update-only configuration is empty and no `UpdateVM` call is issued. -/
theorem resourceVMCloneCreate_declared_zero_no_update :
    (resourceVMCloneCreate sampleLib (okClient "stopped" {} [])
        { node := "pve1", vm_id := 200, clone := some [("source_id", "100")],
          cores := some 0 }).trace
      = [.CloneVM "pve1" 100 200 {}, .Sleep 5, .GetVMConfig "pve1" 200] := by
  rfl

/-! ### Validation errors -/

/-- C5 (amended): when the `source_id` of the clone block is malformed, clone-create,
also when entered through `resourceVMCreate`, returns the error of `strconv.Atoi` as it
is, issues no hypervisor call and leaves the resource data as it was. When the
`source_id` is well-formed, `CloneVM` is the first call clone-create issues, whatever
device blocks are declared: the card models are looked at only after it. -/
theorem resourceVMCloneCreate_validation (lib : Goproxmox) (client : Client)
    (d : ResourceData) :
    (∀ s e, (d.clone.getD []).lookup "source_id" = some s → Atoi s = .error e →
        resourceVMCloneCreate lib client d = { d := d, trace := [], out := .returned (some e) }
        ∧ resourceVMCreate lib client d = { d := d, trace := [], out := .returned (some e) })
    ∧ (∀ sourceID, cloneSourceID (d.clone.getD []) = .ok sourceID →
        (resourceVMCloneCreate lib client d).trace.head?
          = some (.CloneVM d.node sourceID d.vm_id
              { Name := okString d.name,
                Full := if ((d.clone.getD []).lookup "full").isSome then some true
                  else none })) := by
  constructor
  · intro s e hsrc hbad
    have hne : d.clone.getD [] ≠ [] := by
      intro h
      rw [h] at hsrc
      simp at hsrc
    have h1 : resourceVMCloneCreate lib client d
        = { d := d, trace := [], out := .returned (some e) } := by
      simp [resourceVMCloneCreate, Get_node, Get_vm_id, Get_clone, cloneSourceID, hsrc, hbad]
    refine ⟨h1, ?_⟩
    rw [← h1]
    simp [resourceVMCreate, GetOk_clone, hne]
  · intro sourceID hsrc
    simp only [resourceVMCloneCreate, Get_node, Get_vm_id, Get_clone, hsrc, buildCloneConfig_eq,
      buildUpdateConfig_eq]
    cases hc : client.CloneVM d.node sourceID d.vm_id
        { Name := okString d.name,
          Full := if ((d.clone.getD []).lookup "full").isSome then some true else none } with
    | some e => rfl
    | none =>
      simp only []
      split
      · split <;> rfl
      · rfl

/-- C5 (witness): the clone block with `source_id` `1x0`. -/
theorem resourceVMCloneCreate_validation_witness :
    resourceVMCloneCreate sampleLib (okClient "stopped" {} [])
        { node := "pve1", vm_id := 200, clone := some [("source_id", "1x0")] }
      = { d := { node := "pve1", vm_id := 200, clone := some [("source_id", "1x0")] },
          trace := [],
          out := .returned (some (.NumError "Atoi" "1x0" "invalid syntax")) }
    ∧ resourceVMCreate sampleLib (okClient "stopped" {} [])
        { node := "pve1", vm_id := 200, clone := some [("source_id", "1x0")] }
      = { d := { node := "pve1", vm_id := 200, clone := some [("source_id", "1x0")] },
          trace := [],
          out := .returned (some (.NumError "Atoi" "1x0" "invalid syntax")) } :=
  (resourceVMCloneCreate_validation sampleLib (okClient "stopped" {} [])
    { node := "pve1", vm_id := 200, clone := some [("source_id", "1x0")] }).1 "1x0"
    (.NumError "Atoi" "1x0" "invalid syntax") rfl rfl

/-- C5 (counterexample): a clone-create whose declared network device has the card model
`bogus`, which the enum reader rejects: `CloneVM` is issued all the same and no error is
returned. -/
theorem resourceVMCloneCreate_invalid_model_still_clones :
    accepted (sampleLib.NetworkCardModelFromString "bogus") = false
    ∧ (resourceVMCloneCreate sampleLib (okClient "stopped" {} [])
        { node := "pve1", vm_id := 200, clone := some [("source_id", "100")],
          network_device := [{ number := 0, model := "bogus" }] }).trace
      = [.CloneVM "pve1" 100 200 {}, .Sleep 5, .GetVMConfig "pve1" 200]
    ∧ (resourceVMCloneCreate sampleLib (okClient "stopped" {} [])
        { node := "pve1", vm_id := 200, clone := some [("source_id", "100")],
          network_device := [{ number := 0, model := "bogus" }] }).out
      = .returned none := by
  refine ⟨by decide, rfl, rfl⟩

/-! ### Volume identifiers -/

theorem digitChar_isDigit (k : Nat) (hk : k < 10) : (digitChar k).isDigit = true := by
  interval_cases k <;> decide

theorem digitChar_toNat (k : Nat) (hk : k < 10) : (digitChar k).toNat - 48 = k := by
  interval_cases k <;> decide

theorem formatDigits_acc (fuel n : Nat) (acc : List Char) :
    formatDigits fuel n acc = formatDigits fuel n [] ++ acc := by
  induction fuel generalizing n acc with
  | zero => simp [formatDigits]
  | succ f ih =>
    simp only [formatDigits]
    split
    · simp
    · rw [ih (n / 10) (digitChar (n % 10) :: acc), ih (n / 10) [digitChar (n % 10)]]
      simp

theorem formatDigits_isDigit (fuel n : Nat) :
    ∀ c ∈ formatDigits fuel n [], c.isDigit = true := by
  induction fuel generalizing n with
  | zero => simp [formatDigits]
  | succ f ih =>
    intro c hc
    simp only [formatDigits] at hc
    split at hc
    · rename_i h
      simp at hc
      subst hc
      exact digitChar_isDigit n h
    · rw [formatDigits_acc] at hc
      simp at hc
      rcases hc with hc | hc
      · exact ih _ c hc
      · subst hc
        exact digitChar_isDigit _ (Nat.mod_lt _ (by decide))

theorem digitsValue_append_singleton (cs : List Char) (c : Char) :
    digitsValue (cs ++ [c]) = digitsValue cs * 10 + (c.toNat - 48) := by
  simp [digitsValue, List.foldl_append]

theorem digitsValue_formatDigits (fuel n : Nat) (h : n < fuel) :
    digitsValue (formatDigits fuel n []) = n := by
  induction fuel generalizing n with
  | zero => omega
  | succ f ih =>
    simp only [formatDigits]
    split
    · rename_i h10
      simp [digitsValue, digitChar_toNat n h10]
    · rename_i h10
      rw [formatDigits_acc, digitsValue_append_singleton, ih (n / 10) (by omega),
        digitChar_toNat _ (Nat.mod_lt _ (by decide))]
      omega

theorem formatNat_injective (n m : Nat) (h : formatNat n = formatNat m) : n = m := by
  have h1 := digitsValue_formatDigits (n + 1) n (by omega)
  have h2 := digitsValue_formatDigits (m + 1) m (by omega)
  unfold formatNat at h
  rw [h] at h1
  omega

theorem formatNat_isDigit (n : Nat) : ∀ c ∈ formatNat n, c.isDigit = true :=
  formatDigits_isDigit (n + 1) n

theorem Itoa_injective (i j : Int) (h : Itoa i = Itoa j) : i = j := by
  unfold Itoa at h
  by_cases hi : i < 0 <;> by_cases hj : j < 0 <;> simp only [hi, hj, if_true, if_false] at h
  · have h' : formatNat i.natAbs = formatNat j.natAbs := by
      injection h with h
      injection h
    have := formatNat_injective _ _ h'
    omega
  · exfalso
    have hd : ('-' :: formatNat i.natAbs) = formatNat j.natAbs := by injection h
    have hm : '-' ∈ formatNat j.natAbs := by rw [← hd]; simp
    have := formatNat_isDigit _ _ hm
    exact absurd this (by decide)
  · exfalso
    have hd : formatNat i.natAbs = ('-' :: formatNat j.natAbs) := by injection h
    have hm : '-' ∈ formatNat i.natAbs := by rw [hd]; simp
    have := formatNat_isDigit _ _ hm
    exact absurd this (by decide)
  · have h' : formatNat i.natAbs = formatNat j.natAbs := by injection h
    have := formatNat_injective _ _ h'
    omega

theorem Itoa_no_slash (i : Int) : '/' ∉ (Itoa i).data := by
  unfold Itoa
  intro hm
  by_cases hi : i < 0 <;> simp only [hi, if_true, if_false] at hm
  · have hm2 : '/' ∈ '-' :: formatNat i.natAbs := hm
    rcases List.mem_cons.1 hm2 with hm3 | hm3
    · exact absurd hm3 (by decide)
    · exact absurd (formatNat_isDigit i.natAbs '/' hm3) (by decide)
  · have hm2 : '/' ∈ formatNat i.natAbs := hm
    exact absurd (formatNat_isDigit i.natAbs '/' hm2) (by decide)

theorem append_cons_split {α : Type} (c : α) (a1 a2 b1 b2 : List α)
    (h1 : c ∉ a1) (h2 : c ∉ a2) (h : a1 ++ c :: b1 = a2 ++ c :: b2) :
    a1 = a2 ∧ b1 = b2 := by
  induction a1 generalizing a2 with
  | nil =>
    cases a2 with
    | nil => simpa using h
    | cons y ys =>
      simp at h
      simp at h2
      exact absurd h.1 h2.1
  | cons x xs ih =>
    cases a2 with
    | nil =>
      simp at h
      simp at h1
      exact absurd h.1.symm h1.1
    | cons y ys =>
      simp at h h1 h2
      obtain ⟨hxy, hrest⟩ := h
      obtain ⟨hxs, hb⟩ := ih ys h1.2 h2.2 hrest
      exact ⟨by rw [hxy, hxs], hb⟩

/-- The identifier format is injective on storage names without a colon. -/
theorem volumeIdOf_injective (s1 s2 : String) (v1 v2 : Int) (f1 f2 : String)
    (h1 : ':' ∉ s1.data) (h2 : ':' ∉ s2.data)
    (h : volumeIdOf s1 v1 f1 = volumeIdOf s2 v2 f2) :
    s1 = s2 ∧ v1 = v2 ∧ f1 = f2 := by
  have hd := congrArg String.data h
  simp only [volumeIdOf, String.data_append] at hd
  simp only [List.append_assoc, List.singleton_append] at hd
  obtain ⟨hs, hrest⟩ := append_cons_split ':' _ _ _ _ h1 h2 hd
  obtain ⟨hv, hf⟩ := append_cons_split '/' _ _ _ _ (Itoa_no_slash v1) (Itoa_no_slash v2) hrest
  exact ⟨String.ext hs, Itoa_injective _ _ (String.ext hv), String.ext hf⟩

theorem findVolume_of_mem (id : String) (volumes : List Volume)
    (h : ∃ v ∈ volumes, v.VolumeId = id) : ∃ v, findVolume id volumes = some v := by
  induction volumes with
  | nil => simp at h
  | cons x xs ih =>
    by_cases hx : x.VolumeId = id
    · exact ⟨x, by simp [findVolume, hx]⟩
    · obtain ⟨v, hv, hid⟩ := h
      simp at hv
      rcases hv with hv | hv
      · subst hv; exact absurd hid hx
      · obtain ⟨w, hw⟩ := ih ⟨v, hv, hid⟩
        exact ⟨w, by simp [findVolume, hx, hw]⟩

/-- C10 (amended): when `CreateVolume` succeeds and the listing read afterwards holds a
volume with the new identifier, the identifier `resourceVolumeCreate` leaves is exactly
`storageName ++ ":" ++ decimal(vmID) ++ "/" ++ filename`. The mapping from
`(storageName, vmID, filename)` to the identifier is injective on triples whose storage
name contains no colon. -/
theorem resourceVolumeCreate_identifier (client : Client) (d : VolumeData)
    (volumes : List Volume)
    (hcreate : client.CreateVolume d.node d.storage_name d.vm_id d.filename d.size = none)
    (hlist : client.GetStorageVolumes d.node d.storage_name = .ok volumes)
    (hfound : ∃ v ∈ volumes, v.VolumeId = volumeIdOf d.storage_name d.vm_id d.filename) :
    (resourceVolumeCreate client d).d.id
        = d.storage_name ++ ":" ++ Itoa d.vm_id ++ "/" ++ d.filename
    ∧ (resourceVolumeCreate client d).out = .returned none
    ∧ (∀ (s1 s2 : String) (v1 v2 : Int) (f1 f2 : String),
        ':' ∉ s1.data → ':' ∉ s2.data →
        volumeIdOf s1 v1 f1 = volumeIdOf s2 v2 f2 → s1 = s2 ∧ v1 = v2 ∧ f1 = f2) := by
  obtain ⟨w, hw⟩ := findVolume_of_mem _ _ hfound
  have hn : (d.Get "node").asString = some d.node := rfl
  have hs : (d.Get "storage_name").asString = some d.storage_name := rfl
  have hv : (d.Get "vm_id").asInt = some d.vm_id := rfl
  have hf : (d.Get "filename").asString = some d.filename := rfl
  have hz : (d.Get "size").asString = some d.size := rfl
  have hn2 : ((d.SetId (volumeIdOf d.storage_name d.vm_id d.filename)).Get "node").asString
      = some d.node := rfl
  have hs2 : ((d.SetId (volumeIdOf d.storage_name d.vm_id d.filename)).Get
      "storage_name").asString = some d.storage_name := rfl
  have hi2 : (d.SetId (volumeIdOf d.storage_name d.vm_id d.filename)).id
      = volumeIdOf d.storage_name d.vm_id d.filename := rfl
  refine ⟨?_, ?_, fun s1 s2 v1 v2 f1 f2 h1 h2 h => volumeIdOf_injective s1 s2 v1 v2 f1 f2 h1 h2 h⟩
  · simp only [resourceVolumeCreate, hn, hs, hv, hf, hz, hcreate, resourceVolumeRead, hn2, hs2,
      hlist, hi2, hw]
    simp [VolumeData.Set, VolumeData.SetId, volumeIdOf]
  · simp only [resourceVolumeCreate, hn, hs, hv, hf, hz, hcreate, resourceVolumeRead, hn2, hs2,
      hlist, hi2, hw]

/-- C10 (witness): the volume `vm-100-disk-1` of VM 100 on the storage `local-lvm`. -/
theorem resourceVolumeCreate_identifier_witness :
    (resourceVolumeCreate
        (okClient "stopped" {} [{ VolumeId := "local-lvm:100/vm-100-disk-1", VMID := 100,
                                  Size := "8G" }])
        { node := "pve1", storage_name := "local-lvm", vm_id := 100,
          filename := "vm-100-disk-1", size := "8G" }).d.id
      = "local-lvm:100/vm-100-disk-1" :=
  (resourceVolumeCreate_identifier
      (okClient "stopped" {} [{ VolumeId := "local-lvm:100/vm-100-disk-1", VMID := 100,
                                Size := "8G" }])
      { node := "pve1", storage_name := "local-lvm", vm_id := 100,
        filename := "vm-100-disk-1", size := "8G" }
      [{ VolumeId := "local-lvm:100/vm-100-disk-1", VMID := 100, Size := "8G" }]
      rfl rfl ⟨_, List.mem_singleton.2 rfl, by decide⟩).1.trans (by decide)

/-- C10 (counterexample): the storage name `pool:1/x` with VM 2 and file `y.raw`, and the
storage name `pool` with VM 1 and file `x:2/y.raw`, leave the same identifier
`pool:1/x:2/y.raw`; and when the listing read after the create does not hold the new
volume, the identifier left is empty. -/
theorem resourceVolumeCreate_identifier_collision :
    (resourceVolumeCreate
        (okClient "stopped" {} [{ VolumeId := "pool:1/x:2/y.raw", VMID := 1, Size := "1G" }])
        { node := "pve1", storage_name := "pool:1/x", vm_id := 2, filename := "y.raw",
          size := "1G" }).d.id = "pool:1/x:2/y.raw"
    ∧ (resourceVolumeCreate
        (okClient "stopped" {} [{ VolumeId := "pool:1/x:2/y.raw", VMID := 1, Size := "1G" }])
        { node := "pve1", storage_name := "pool", vm_id := 1, filename := "x:2/y.raw",
          size := "1G" }).d.id = "pool:1/x:2/y.raw"
    ∧ (resourceVolumeCreate (okClient "stopped" {} [])
        { node := "pve1", storage_name := "local-lvm", vm_id := 100,
          filename := "vm-100-disk-1", size := "8G" }).d.id = "" := by
  refine ⟨by decide, by decide, by decide⟩

end Proxmox
